import Mathlib

/-!
Shallow embedding of the lasso repository's storage-provider selection and
fallback logic (src/utils/storage.ts and its two variant copies), the
Lighthouse adapter (src/utils/lighthouse.ts), and the admin profile module
(src/utils/admin.ts).  Adapter calls and remote-store calls are modelled as
environment-supplied values of type Except TsError _, where the error case
models a thrown JavaScript exception; try/catch becomes a match on that
Except.  Each translated function also returns a trace of the external calls
it made, so that claims about which adapter was invoked are statable.
-/

/-- The TS union type StorageProvider = 'pinata' | 'lighthouse'. -/
inductive StorageProvider where
  | pinata
  | lighthouse
deriving DecidableEq, Repr

/-- The runtime string value of a StorageProvider literal. -/
def provStr : StorageProvider → String
  | .pinata => "pinata"
  | .lighthouse => "lighthouse"

/-- A thrown JavaScript error value: only its message field is observed
(via error.message, which may be absent). -/
structure TsError where
  message : Option String := none
deriving DecidableEq, Repr

/-- The TS idiom (error.message || default): the default is used when the
message is absent or the empty string (falsy). -/
def errMessage (e : TsError) (default : String) : String :=
  match e.message with
  | some s => if s = "" then default else s
  | none => default

/-- The result object returned by an adapter:
{ success: boolean; cid?: string; message?: string }. -/
structure UploadResult where
  success : Bool
  cid : Option String := none
  message : Option String := none
deriving DecidableEq, Repr

/-- The outcome object of the uploadFileToIPFS variants that carry a
fallbackUsed field (unnamed parts 003 and 004). -/
structure Outcome where
  success : Bool
  cid : Option String := none
  message : Option String := none
  provider : StorageProvider
  fallbackUsed : Bool
deriving DecidableEq, Repr

/-- The outcome object of the src/utils/storage.ts variant, which has no
fallbackUsed field. -/
structure OutcomeV1 where
  success : Bool
  cid : Option String := none
  message : Option String := none
  provider : StorageProvider
deriving DecidableEq, Repr

/-- Which external adapter a call went to. -/
inductive AdapterCall where
  | lighthouse
  | pinata
deriving DecidableEq, Repr

/-- One adapter call event: which adapter was called and whether the call
raised (rejected) rather than returning a result object. -/
structure CallEv where
  callee : AdapterCall
  raised : Bool
deriving DecidableEq, Repr

/-- The provider an adapter call belongs to. -/
def providerOf : AdapterCall → StorageProvider
  | .lighthouse => StorageProvider.lighthouse
  | .pinata => StorageProvider.pinata

/-- Number of Pinata calls in a trace. -/
def pinataCalls (tr : List CallEv) : Nat :=
  (tr.filter (fun ev => ev.callee = AdapterCall.pinata)).length

/-- Number of Lighthouse calls in a trace. -/
def lighthouseCalls (tr : List CallEv) : Nat :=
  (tr.filter (fun ev => ev.callee = AdapterCall.lighthouse)).length

/-- The behaviour of the external adapters during one uploadFileToIPFS call:
what uploadFileToLighthouse(file) settles to, whether the 3-second timer of
the race in unnamed part 003 fires before it settles, and what the n-th call
to pinFileToIPFS(file) settles to (the orchestrators call Pinata at most
twice).  pinFileToIPFS lives in src/utils/pinata.ts, which is not among the
provided sources, so its behaviour is left fully opaque. -/
structure AdapterEnv where
  lighthouse : Except TsError UploadResult
  lighthouseTimedOut : Bool
  pinata : Nat → Except TsError UploadResult

namespace Part003

/-- uploadFileToIPFS from unnamed part 003: timeout race on the Lighthouse
attempt, a skipLighthouse flag, fallback to Pinata on Lighthouse failure,
error or timeout, and an outer catch reporting the requested provider. -/
def uploadFileToIPFS (env : AdapterEnv) (provider : StorageProvider)
    (skipLighthouse : Bool) : Except TsError Outcome × List CallEv :=
  if provider = StorageProvider.lighthouse ∧ skipLighthouse = true then
    match env.pinata 0 with
    | .ok result =>
        (.ok { success := result.success, cid := result.cid, message := result.message,
               provider := StorageProvider.pinata, fallbackUsed := true },
         [⟨AdapterCall.pinata, false⟩])
    | .error e =>
        (.ok { success := false, cid := none,
               message := some (errMessage e "Failed to upload to IPFS"),
               provider := provider, fallbackUsed := false },
         [⟨AdapterCall.pinata, true⟩])
  else if provider = StorageProvider.lighthouse then
    let raced : Except TsError UploadResult :=
      if env.lighthouseTimedOut then
        .ok { success := false, message := some "Upload timed out" }
      else env.lighthouse
    let lhEv : CallEv := ⟨AdapterCall.lighthouse,
      if env.lighthouseTimedOut then false else
        match env.lighthouse with | .error _ => true | .ok _ => false⟩
    match raced with
    | .ok r =>
        if r.success = true then
          (.ok { success := r.success, cid := r.cid, message := r.message,
                 provider := provider, fallbackUsed := false }, [lhEv])
        else
          match env.pinata 0 with
          | .ok r2 =>
              (.ok { success := r2.success, cid := r2.cid, message := r2.message,
                     provider := StorageProvider.pinata, fallbackUsed := true },
               [lhEv, ⟨AdapterCall.pinata, false⟩])
          | .error _ =>
              match env.pinata 1 with
              | .ok r3 =>
                  (.ok { success := r3.success, cid := r3.cid, message := r3.message,
                         provider := StorageProvider.pinata, fallbackUsed := true },
                   [lhEv, ⟨AdapterCall.pinata, true⟩, ⟨AdapterCall.pinata, false⟩])
              | .error e =>
                  (.ok { success := false, cid := none,
                         message := some (errMessage e "Failed to upload to IPFS"),
                         provider := provider, fallbackUsed := false },
                   [lhEv, ⟨AdapterCall.pinata, true⟩, ⟨AdapterCall.pinata, true⟩])
    | .error _ =>
        match env.pinata 0 with
        | .ok r3 =>
            (.ok { success := r3.success, cid := r3.cid, message := r3.message,
                   provider := StorageProvider.pinata, fallbackUsed := true },
             [lhEv, ⟨AdapterCall.pinata, false⟩])
        | .error e =>
            (.ok { success := false, cid := none,
                   message := some (errMessage e "Failed to upload to IPFS"),
                   provider := provider, fallbackUsed := false },
             [lhEv, ⟨AdapterCall.pinata, true⟩])
  else
    match env.pinata 0 with
    | .ok result =>
        (.ok { success := result.success, cid := result.cid, message := result.message,
               provider := provider, fallbackUsed := false },
         [⟨AdapterCall.pinata, false⟩])
    | .error e =>
        (.ok { success := false, cid := none,
               message := some (errMessage e "Failed to upload to IPFS"),
               provider := provider, fallbackUsed := false },
         [⟨AdapterCall.pinata, true⟩])

end Part003

namespace Part004

/-- uploadFileToIPFS from unnamed part 004: fallback to Pinata when the
Lighthouse attempt returns a failure result or raises (no timeout race), the
reported provider computed as (fallbackUsed ? 'pinata' : provider), and an
outer catch reporting the requested provider. -/
def uploadFileToIPFS (env : AdapterEnv) (provider : StorageProvider) :
    Except TsError Outcome × List CallEv :=
  if provider = StorageProvider.lighthouse then
    match env.lighthouse with
    | .ok r =>
        if r.success = true then
          (.ok { success := r.success, cid := r.cid, message := r.message,
                 provider := provider, fallbackUsed := false },
           [⟨AdapterCall.lighthouse, false⟩])
        else
          match env.pinata 0 with
          | .ok r2 =>
              (.ok { success := r2.success, cid := r2.cid, message := r2.message,
                     provider := StorageProvider.pinata, fallbackUsed := true },
               [⟨AdapterCall.lighthouse, false⟩, ⟨AdapterCall.pinata, false⟩])
          | .error _ =>
              match env.pinata 1 with
              | .ok r3 =>
                  (.ok { success := r3.success, cid := r3.cid, message := r3.message,
                         provider := StorageProvider.pinata, fallbackUsed := true },
                   [⟨AdapterCall.lighthouse, false⟩, ⟨AdapterCall.pinata, true⟩,
                    ⟨AdapterCall.pinata, false⟩])
              | .error e =>
                  (.ok { success := false, cid := none,
                         message := some (errMessage e
                           ("Failed to upload to IPFS via " ++ provStr provider)),
                         provider := provider, fallbackUsed := false },
                   [⟨AdapterCall.lighthouse, false⟩, ⟨AdapterCall.pinata, true⟩,
                    ⟨AdapterCall.pinata, true⟩])
    | .error _ =>
        match env.pinata 0 with
        | .ok r3 =>
            (.ok { success := r3.success, cid := r3.cid, message := r3.message,
                   provider := StorageProvider.pinata, fallbackUsed := true },
             [⟨AdapterCall.lighthouse, true⟩, ⟨AdapterCall.pinata, false⟩])
        | .error e =>
            (.ok { success := false, cid := none,
                   message := some (errMessage e
                     ("Failed to upload to IPFS via " ++ provStr provider)),
                   provider := provider, fallbackUsed := false },
             [⟨AdapterCall.lighthouse, true⟩, ⟨AdapterCall.pinata, true⟩])
  else
    match env.pinata 0 with
    | .ok r =>
        (.ok { success := r.success, cid := r.cid, message := r.message,
               provider := provider, fallbackUsed := false },
         [⟨AdapterCall.pinata, false⟩])
    | .error e =>
        (.ok { success := false, cid := none,
               message := some (errMessage e
                 ("Failed to upload to IPFS via " ++ provStr provider)),
               provider := provider, fallbackUsed := false },
         [⟨AdapterCall.pinata, true⟩])

end Part004

namespace StorageTs

/-- uploadFileToIPFS from src/utils/storage.ts: one attempt against the
selected provider, no fallback and no fallbackUsed field; the catch converts
a raise into a failure outcome naming the requested provider. -/
def uploadFileToIPFS (env : AdapterEnv) (provider : StorageProvider) :
    Except TsError OutcomeV1 × List CallEv :=
  if provider = StorageProvider.lighthouse then
    match env.lighthouse with
    | .ok r =>
        (.ok { success := r.success, cid := r.cid, message := r.message,
               provider := provider }, [⟨AdapterCall.lighthouse, false⟩])
    | .error e =>
        (.ok { success := false, cid := none,
               message := some (errMessage e
                 ("Failed to upload to IPFS via " ++ provStr provider)),
               provider := provider }, [⟨AdapterCall.lighthouse, true⟩])
  else
    match env.pinata 0 with
    | .ok r =>
        (.ok { success := r.success, cid := r.cid, message := r.message,
               provider := provider }, [⟨AdapterCall.pinata, false⟩])
    | .error e =>
        (.ok { success := false, cid := none,
               message := some (errMessage e
                 ("Failed to upload to IPFS via " ++ provStr provider)),
               provider := provider }, [⟨AdapterCall.pinata, true⟩])

end StorageTs

namespace Lighthouse

/-- What the Lighthouse SDK call and the mock path see during one call of
uploadFileToLighthouse: the API key from the environment, the two random
suffix fragments of the mock CID, and what lighthouse.upload settles to
(dataHash models uploadResponse.data && uploadResponse.data.Hash, none when
either is absent). -/
structure LighthouseEnv where
  apiKey : Option String
  rand1 : String
  rand2 : String
  sdkDataHash : Except TsError (Option String)
deriving Repr

/-- uploadFileToLighthouse from src/utils/lighthouse.ts: with no API key
(absent or empty, falsy) it takes the mock path and returns success with a
synthetic "bafkreib"-prefixed CID; otherwise it calls the SDK, throws when
the response has no Hash, and its own catch converts every error into a
failure result with a message. -/
def uploadFileToLighthouse (env : LighthouseEnv) : UploadResult :=
  if env.apiKey = none ∨ env.apiKey = some "" then
    { success := true, cid := some ("bafkreib" ++ env.rand1 ++ env.rand2) }
  else
    match env.sdkDataHash with
    | .error e =>
        { success := false,
          message := some (errMessage e "Failed to upload to IPFS via Lighthouse") }
    | .ok h =>
        match h with
        | none =>
            { success := false, message := some "Failed to get CID from Lighthouse response" }
        | some s =>
            if s = "" then
              { success := false, message := some "Failed to get CID from Lighthouse response" }
            else { success := true, cid := some s }

end Lighthouse

/-- Which remote-store boundary a call went to. -/
inductive DbCall where
  | select
  | update
  | getSession
  | authUpdate
deriving DecidableEq, Repr

/-- The row shape seen by getStorageProvider's select of the
storage_provider column. -/
structure ProviderRow where
  storage_provider : Option String := none
deriving DecidableEq, Repr

/-- The { data, error } object a supabase select resolves to for
getStorageProvider. -/
structure SelectOutcome where
  data : Option ProviderRow := none
  error : Option TsError := none
deriving DecidableEq, Repr

/-- The { success, message? } result shape. -/
structure SetResult where
  success : Bool
  message : Option String := none
deriving DecidableEq, Repr

/-- getStorageProvider from src/utils/storage.ts: empty wallet address short
circuits to 'pinata'; a lookup that raises, reports an error, finds no row,
or finds a falsy storage_provider value yields 'pinata'; otherwise the
stored string is returned as-is (the TS code casts it to StorageProvider
without checking).  Also returns the list of store calls made. -/
def getStorageProvider (walletAddress : String)
    (sel : Except TsError SelectOutcome) : String × List DbCall :=
  if walletAddress = "" then ("pinata", [])
  else
    match sel with
    | .error _ => ("pinata", [DbCall.select])
    | .ok s =>
        if s.error.isSome then ("pinata", [DbCall.select])
        else
          match s.data with
          | none => ("pinata", [DbCall.select])
          | some row =>
              match row.storage_provider with
              | none => ("pinata", [DbCall.select])
              | some v => (if v = "" then "pinata" else v, [DbCall.select])

/-- setStorageProvider from src/utils/storage.ts: empty wallet address short
circuits to a failure result; an update that raises or reports an error is
surfaced as { success: false, message }; otherwise { success: true }.  The
upd argument is what the supabase update call settles to: raising, resolving
with an error object, or resolving cleanly. -/
def setStorageProvider (walletAddress : String) (provider : StorageProvider)
    (upd : Except TsError (Option TsError)) : SetResult × List DbCall :=
  if walletAddress = "" then
    ({ success := false, message := some "No wallet address provided" }, [])
  else
    match upd with
    | .error e =>
        ({ success := false,
           message := some (errMessage e "Failed to update storage provider") },
         [DbCall.update])
    | .ok (some e) =>
        ({ success := false,
           message := some (errMessage e "Failed to update storage provider") },
         [DbCall.update])
    | .ok none => ({ success := true }, [DbCall.update])

/-- One row of the organization_admins table. -/
structure AdminRow where
  full_name : Option String := none
  email : Option String := none
  subscription_plan : Option String := none
  storage_provider : Option String := none
deriving DecidableEq, Repr

/-- Modelled from the spec: the administrative record table (supabase, an
external collaborator; src/utils/supabase.ts is not among the provided
sources) as one logical row per account addressed by wallet key. -/
def Store : Type := String → Option AdminRow

/-- Modelled from the spec: a select of storage_provider by wallet key with
.single(), which reports an error (PGRST116) and no data when no row
matches, and the row's column when one does. -/
def dbSelectProvider (store : Store) (walletAddress : String) : SelectOutcome :=
  match store walletAddress with
  | some row => { data := some { storage_provider := row.storage_provider } }
  | none => { data := none, error := some { message := some "PGRST116" } }

/-- Modelled from the spec: an SQL update of storage_provider where
wallet_address matches; a key with no row is left unchanged and no error is
reported (an UPDATE matching zero rows succeeds vacuously). -/
def dbUpdateProvider (store : Store) (walletAddress : String) (value : String) :
    Store × Option TsError :=
  (fun w => if w = walletAddress then
      (store w).map (fun row => { row with storage_provider := some value })
    else store w,
   none)

/-- getStorageProvider run against a concrete store state. -/
def getStorageProviderSt (store : Store) (walletAddress : String) : String :=
  (getStorageProvider walletAddress (.ok (dbSelectProvider store walletAddress))).1

/-- setStorageProvider run against a concrete store state, returning the
result and the new state (unchanged when the guard short-circuits). -/
def setStorageProviderSt (store : Store) (walletAddress : String)
    (provider : StorageProvider) : SetResult × Store :=
  if walletAddress = "" then
    ((setStorageProvider walletAddress provider (.ok none)).1, store)
  else
    let u := dbUpdateProvider store walletAddress (provStr provider)
    ((setStorageProvider walletAddress provider (.ok u.2)).1, u.1)

/-- The AdminInfo profile shape from src/utils/admin.ts. -/
structure AdminInfo where
  fullName : Option String := none
  email : Option String := none
  subscriptionPlan : Option String := none
  isAdmin : Bool := false
deriving DecidableEq, Repr

/-- The all-null non-admin profile the admin module degrades to. -/
def allNullAdminInfo : AdminInfo :=
  { fullName := none, email := none, subscriptionPlan := none, isAdmin := false }

/-- The authenticated session user as fetchAdminInfo observes it: the
session email (none when absent or not a string) and the full_name entry of
user_metadata (none when absent or not a string, matching the typeof
checks). -/
structure SessionUser where
  email : Option String := none
  full_name : Option String := none
deriving DecidableEq, Repr

/-- The { data, error } object the admin-record select resolves to for
fetchAdminInfo. -/
structure AdminSelectOutcome where
  data : Option AdminRow := none
  error : Option TsError := none
deriving DecidableEq, Repr

/-- fetchAdminInfo from src/utils/admin.ts: empty wallet address short
circuits to the all-null profile; a found admin row yields its fields with
isAdmin true; otherwise the session is consulted as a fallback; a raise
anywhere degrades to the all-null profile via the catch.  A select error
object (e.g. PGRST116) is only logged, so it is not modelled beyond data
being absent.  The sess argument is what supabase.auth.getSession settles
to (none = no active session). -/
def fetchAdminInfo (walletAddress : String)
    (sel : Except TsError AdminSelectOutcome)
    (sess : Except TsError (Option SessionUser)) :
    Except TsError AdminInfo × List DbCall :=
  if walletAddress = "" then (.ok allNullAdminInfo, [])
  else
    match sel with
    | .error _ => (.ok allNullAdminInfo, [DbCall.select])
    | .ok s =>
        match s.data with
        | some row =>
            (.ok { fullName := row.full_name, email := row.email,
                   subscriptionPlan := row.subscription_plan, isAdmin := true },
             [DbCall.select])
        | none =>
            match sess with
            | .error _ => (.ok allNullAdminInfo, [DbCall.select, DbCall.getSession])
            | .ok (some u) =>
                (.ok { fullName := u.full_name, email := u.email,
                       subscriptionPlan := none, isAdmin := false },
                 [DbCall.select, DbCall.getSession])
            | .ok none => (.ok allNullAdminInfo, [DbCall.select, DbCall.getSession])

/-- The updates argument of updateAdminInfo (none = field not supplied). -/
structure AdminUpdates where
  fullName : Option String := none
  email : Option String := none
deriving DecidableEq, Repr

/-- updateAdminInfo from src/utils/admin.ts: empty wallet address short
circuits to a failure result; otherwise it looks up the admin id (the error
of that select is discarded), updates the admin row only when one was found,
then updates the auth user metadata when fullName was supplied; the first
raise or reported error aborts via the catch with its message.  selId is
what the id lookup settles to (data presence only), upd and authUpd what the
two update calls settle to. -/
def updateAdminInfo (walletAddress : String) (updates : AdminUpdates)
    (selId : Except TsError (Option Unit))
    (upd : Except TsError (Option TsError))
    (authUpd : Except TsError (Option TsError)) : SetResult × List DbCall :=
  if walletAddress = "" then
    ({ success := false, message := some "No wallet address provided" }, [])
  else
    match selId with
    | .error e =>
        ({ success := false,
           message := some (errMessage e "Failed to update admin information") },
         [DbCall.select])
    | .ok adminData =>
        let step2 : SetResult × List DbCall → SetResult × List DbCall :=
          fun acc =>
            if updates.fullName.isSome then
              match authUpd with
              | .error e =>
                  ({ success := false,
                     message := some (errMessage e "Failed to update admin information") },
                   acc.2 ++ [DbCall.authUpdate])
              | .ok (some e) =>
                  ({ success := false,
                     message := some (errMessage e "Failed to update admin information") },
                   acc.2 ++ [DbCall.authUpdate])
              | .ok none => ({ success := true }, acc.2 ++ [DbCall.authUpdate])
            else ({ success := true }, acc.2)
        if adminData.isSome then
          match upd with
          | .error e =>
              ({ success := false,
                 message := some (errMessage e "Failed to update admin information") },
               [DbCall.select, DbCall.update])
          | .ok (some e) =>
              ({ success := false,
                 message := some (errMessage e "Failed to update admin information") },
               [DbCall.select, DbCall.update])
          | .ok none => step2 (⟨{ success := true }, [DbCall.select, DbCall.update]⟩)
        else step2 (⟨{ success := true }, [DbCall.select]⟩)

/-- C3: for every adapter behaviour, requested provider and skip flag, the
outcome of uploadFileToIPFS (both fallback variants, unnamed parts 003 and
004) has fallbackUsed = true exactly when the provider it reports differs
from the provider the caller requested. -/
theorem C3_fallbackUsed_iff_provider_differs :
    ∀ (env : AdapterEnv) (prov : StorageProvider) (skip : Bool),
      (∃ o, (Part003.uploadFileToIPFS env prov skip).1 = .ok o ∧
        (o.fallbackUsed = true ↔ o.provider ≠ prov)) ∧
      (∃ o, (Part004.uploadFileToIPFS env prov).1 = .ok o ∧
        (o.fallbackUsed = true ↔ o.provider ≠ prov)) := by
  intro env prov skip
  constructor
  · simp only [Part003.uploadFileToIPFS]
    repeat' split
    all_goals refine ⟨_, rfl, ?_⟩
    all_goals simp_all
  · simp only [Part004.uploadFileToIPFS]
    repeat' split
    all_goals refine ⟨_, rfl, ?_⟩
    all_goals simp_all

/-- C2: every uploadFileToIPFS variant always settles to an outcome object
and never raises past its boundary, whatever the adapters do (first three
conjuncts); and when the adapters raise, the exception reaching the boundary
is converted by the outer catch into a failure outcome with success = false,
a message, and a provider field (last three conjuncts, one per variant). -/
theorem C2_never_raises_and_converts_exceptions :
    ∀ (env : AdapterEnv) (prov : StorageProvider) (skip : Bool) (e : TsError),
      (∃ o, (Part003.uploadFileToIPFS env prov skip).1 = .ok o) ∧
      (∃ o, (Part004.uploadFileToIPFS env prov).1 = .ok o) ∧
      (∃ o, (StorageTs.uploadFileToIPFS env prov).1 = .ok o) ∧
      (Part003.uploadFileToIPFS ⟨.error e, env.lighthouseTimedOut, fun _ => .error e⟩
          prov skip).1 =
        .ok { success := false, cid := none,
              message := some (errMessage e "Failed to upload to IPFS"),
              provider := prov, fallbackUsed := false } ∧
      (Part004.uploadFileToIPFS ⟨.error e, env.lighthouseTimedOut, fun _ => .error e⟩
          prov).1 =
        .ok { success := false, cid := none,
              message := some (errMessage e ("Failed to upload to IPFS via " ++ provStr prov)),
              provider := prov, fallbackUsed := false } ∧
      (StorageTs.uploadFileToIPFS ⟨.error e, env.lighthouseTimedOut, fun _ => .error e⟩
          prov).1 =
        .ok { success := false, cid := none,
              message := some (errMessage e ("Failed to upload to IPFS via " ++ provStr prov)),
              provider := prov } := by
  intro env prov skip e
  refine ⟨?_, ?_, ?_, ?_, ?_, ?_⟩
  · simp only [Part003.uploadFileToIPFS]
    repeat' split
    all_goals exact ⟨_, rfl⟩
  · simp only [Part004.uploadFileToIPFS]
    repeat' split
    all_goals exact ⟨_, rfl⟩
  · simp only [StorageTs.uploadFileToIPFS]
    repeat' split
    all_goals exact ⟨_, rfl⟩
  · rcases env with ⟨lh, t, pin⟩
    cases t <;> cases prov <;> cases skip <;> rfl
  · rcases env with ⟨lh, t, pin⟩
    cases t <;> cases prov <;> rfl
  · rcases env with ⟨lh, t, pin⟩
    cases t <;> cases prov <;> rfl

/-- The condition under which the part 003 orchestrator abandons the
Lighthouse attempt: the race timed out, the adapter raised, or it returned a
failure result. -/
def lighthouseAttemptFailed3 (env : AdapterEnv) : Bool :=
  env.lighthouseTimedOut ||
    (match env.lighthouse with | .error _ => true | .ok r => !r.success)

/-- The condition under which the part 004 orchestrator abandons the
Lighthouse attempt (no timeout race in that variant): the adapter raised or
returned a failure result. -/
def lighthouseAttemptFailed4 (env : AdapterEnv) : Bool :=
  match env.lighthouse with | .error _ => true | .ok r => !r.success

/-- C1 counterexample: with the Lighthouse adapter returning a failure
result and every Pinata call raising, the part 003 orchestrator (requested
provider lighthouse) attempts Pinata twice, not once, and returns
fallbackUsed = false with provider = 'lighthouse', not 'pinata' — refuting
the claim that the outcome then always has fallbackUsed = true and
provider = 'pinata'. -/
theorem C1_counterexample :
    let env : AdapterEnv :=
      ⟨.ok { success := false, cid := none, message := none }, false,
       fun _ => .error { message := none }⟩
    let res := Part003.uploadFileToIPFS env StorageProvider.lighthouse false
    res.1 = .ok { success := false, cid := none,
                  message := some "Failed to upload to IPFS",
                  provider := StorageProvider.lighthouse, fallbackUsed := false } ∧
    pinataCalls res.2 = 2 := by
  exact ⟨rfl, rfl⟩

/-- C1 amended: if the requested provider is lighthouse and the Lighthouse
attempt raises, returns a failure result, or (part 003) times out, and the
Pinata fallback attempt itself returns a result object rather than raising,
then both fallback variants retry exactly once against Pinata and return
that result with fallbackUsed = true and provider = 'pinata'. -/
theorem C1_amended_single_fallback_to_pinata (env : AdapterEnv) (r : UploadResult)
    (hp : env.pinata 0 = .ok r) :
    (lighthouseAttemptFailed3 env = true →
      (Part003.uploadFileToIPFS env StorageProvider.lighthouse false).1 =
        .ok { success := r.success, cid := r.cid, message := r.message,
              provider := StorageProvider.pinata, fallbackUsed := true } ∧
      pinataCalls (Part003.uploadFileToIPFS env StorageProvider.lighthouse false).2 = 1) ∧
    (lighthouseAttemptFailed4 env = true →
      (Part004.uploadFileToIPFS env StorageProvider.lighthouse).1 =
        .ok { success := r.success, cid := r.cid, message := r.message,
              provider := StorageProvider.pinata, fallbackUsed := true } ∧
      pinataCalls (Part004.uploadFileToIPFS env StorageProvider.lighthouse).2 = 1) := by
  rcases env with ⟨lh, t, pin⟩
  constructor <;> intro h <;>
    cases t <;> rcases hlh : lh with e0 | r0 <;>
      simp_all [Part003.uploadFileToIPFS, Part004.uploadFileToIPFS,
        lighthouseAttemptFailed3, lighthouseAttemptFailed4, pinataCalls]

/-- Concrete input for the C1 witness: Lighthouse fails, the single Pinata
fallback call returns a successful result. -/
def envC1W : AdapterEnv :=
  ⟨.ok { success := false, cid := none, message := some "lighthouse down" }, false,
   fun _ => .ok { success := true, cid := some "QmWitness1", message := none }⟩

/-- C1 witness: the amended theorem applied at a concrete input. -/
theorem C1_amended_single_fallback_to_pinata_witness :
    (Part003.uploadFileToIPFS envC1W StorageProvider.lighthouse false).1 =
      .ok { success := true, cid := some "QmWitness1", message := none,
            provider := StorageProvider.pinata, fallbackUsed := true } ∧
    pinataCalls (Part003.uploadFileToIPFS envC1W StorageProvider.lighthouse false).2 = 1 ∧
    (Part004.uploadFileToIPFS envC1W StorageProvider.lighthouse).1 =
      .ok { success := true, cid := some "QmWitness1", message := none,
            provider := StorageProvider.pinata, fallbackUsed := true } := by
  have h := C1_amended_single_fallback_to_pinata envC1W
    { success := true, cid := some "QmWitness1", message := none } rfl
  exact ⟨(h.1 rfl).1, (h.1 rfl).2, (h.2 rfl).1⟩

/-- C4 counterexample: with the Lighthouse adapter returning a failure
result and every Pinata call raising, the part 004 orchestrator (requested
provider lighthouse) last attempts the Pinata adapter, yet the failure
outcome reports provider = 'lighthouse' — refuting the claim that on overall
failure the provider field names the adapter attempted last, and in
particular that a raising Pinata fallback yields provider = 'pinata'. -/
theorem C4_counterexample :
    let env : AdapterEnv :=
      ⟨.ok { success := false, cid := none, message := some "no quota" }, false,
       fun _ => .error { message := some "pinata unreachable" }⟩
    let res := Part004.uploadFileToIPFS env StorageProvider.lighthouse
    res.1 = .ok { success := false, cid := none,
                  message := some "pinata unreachable",
                  provider := StorageProvider.lighthouse, fallbackUsed := false } ∧
    res.2.getLast? = some ⟨AdapterCall.pinata, true⟩ ∧
    StorageProvider.lighthouse ≠ StorageProvider.pinata := by
  exact ⟨rfl, rfl, by decide⟩

/-- C4 amended: in both fallback variants the outcome's provider names the
adapter whose call produced the returned result — the last attempted adapter
— whenever that last call returned a result object (successful or not); when
the last attempted call raises, the outer catch instead reports the
originally requested provider. -/
theorem C4_amended_provider_names_last_returning_adapter :
    ∀ (env : AdapterEnv) (prov : StorageProvider) (skip : Bool),
      (∃ o ev, (Part003.uploadFileToIPFS env prov skip).1 = .ok o ∧
        (Part003.uploadFileToIPFS env prov skip).2.getLast? = some ev ∧
        o.provider = (if ev.raised then prov else providerOf ev.callee)) ∧
      (∃ o ev, (Part004.uploadFileToIPFS env prov).1 = .ok o ∧
        (Part004.uploadFileToIPFS env prov).2.getLast? = some ev ∧
        o.provider = (if ev.raised then prov else providerOf ev.callee)) := by
  intro env prov skip
  rcases env with ⟨lh, t, pin⟩
  constructor
  · simp only [Part003.uploadFileToIPFS]
    repeat' split
    all_goals refine ⟨_, _, rfl, rfl, ?_⟩
    all_goals try simp_all [providerOf]
    all_goals rcases prov <;> simp_all
  · simp only [Part004.uploadFileToIPFS]
    repeat' split
    all_goals refine ⟨_, _, rfl, rfl, ?_⟩
    all_goals try simp_all [providerOf]
    all_goals rcases prov <;> simp_all

/-- The condition of C5: the first Pinata call raises or returns a failure
result. -/
def pinataAttemptFailed (env : AdapterEnv) : Bool :=
  match env.pinata 0 with | .error _ => true | .ok r => !r.success

/-- C5: when the requested provider is pinata and the Pinata adapter fails
(raises or returns a failure result), every uploadFileToIPFS variant returns
success = false with provider = 'pinata' and, where the field exists,
fallbackUsed = false, and the Lighthouse adapter is never invoked. -/
theorem C5_primary_failure_no_cross_fallback (env : AdapterEnv) (skip : Bool)
    (h : pinataAttemptFailed env = true) :
    (∃ o, (Part003.uploadFileToIPFS env StorageProvider.pinata skip).1 = .ok o ∧
      o.success = false ∧ o.provider = StorageProvider.pinata ∧ o.fallbackUsed = false) ∧
    lighthouseCalls (Part003.uploadFileToIPFS env StorageProvider.pinata skip).2 = 0 ∧
    (∃ o, (Part004.uploadFileToIPFS env StorageProvider.pinata).1 = .ok o ∧
      o.success = false ∧ o.provider = StorageProvider.pinata ∧ o.fallbackUsed = false) ∧
    lighthouseCalls (Part004.uploadFileToIPFS env StorageProvider.pinata).2 = 0 ∧
    (∃ o, (StorageTs.uploadFileToIPFS env StorageProvider.pinata).1 = .ok o ∧
      o.success = false ∧ o.provider = StorageProvider.pinata) ∧
    lighthouseCalls (StorageTs.uploadFileToIPFS env StorageProvider.pinata).2 = 0 := by
  rcases env with ⟨lh, t, pin⟩
  rcases hp : pin 0 with e0 | r0 <;>
    simp_all [Part003.uploadFileToIPFS, Part004.uploadFileToIPFS,
      StorageTs.uploadFileToIPFS, pinataAttemptFailed, lighthouseCalls]

/-- Concrete input for the C5 witness: Pinata returns a failure result. -/
def envC5W : AdapterEnv :=
  ⟨.ok { success := true, cid := some "bafyL", message := none }, false,
   fun _ => .ok { success := false, cid := none, message := some "denied" }⟩

/-- C5 witness: the theorem applied at a concrete input. -/
theorem C5_primary_failure_no_cross_fallback_witness :
    (∃ o, (Part003.uploadFileToIPFS envC5W StorageProvider.pinata false).1 = .ok o ∧
      o.success = false ∧ o.provider = StorageProvider.pinata ∧ o.fallbackUsed = false) ∧
    lighthouseCalls (Part003.uploadFileToIPFS envC5W StorageProvider.pinata false).2 = 0 := by
  have h := C5_primary_failure_no_cross_fallback envC5W false rfl
  exact ⟨h.1, h.2.1⟩

/-- C6: getStorageProvider yields 'pinata' when the lookup raises, when the
select reports no row, when the row's storage_provider is null, and when the
select reports an error object; setStorageProvider surfaces a raising or
error-reporting write as success = false with a message, and reports
success = true when the write does not error. -/
theorem C6_default_on_missing_and_write_error_surfaced (w : String) (e : TsError)
    (errOpt : Option TsError) (p : StorageProvider) (h : w ≠ "") :
    (getStorageProvider w (.error e)).1 = "pinata" ∧
    (getStorageProvider w (.ok { data := none, error := errOpt })).1 = "pinata" ∧
    (getStorageProvider w
      (.ok { data := some { storage_provider := some "lighthouse" },
             error := some e })).1 = "pinata" ∧
    (getStorageProvider w
      (.ok { data := some { storage_provider := none }, error := none })).1 = "pinata" ∧
    (setStorageProvider w p (.error e)).1 =
      { success := false,
        message := some (errMessage e "Failed to update storage provider") } ∧
    (setStorageProvider w p (.ok (some e))).1 =
      { success := false,
        message := some (errMessage e "Failed to update storage provider") } ∧
    (setStorageProvider w p (.ok none)).1 = { success := true, message := none } := by
  simp [getStorageProvider, setStorageProvider, h]

/-- C6 witness: the theorem applied at a concrete input. -/
theorem C6_default_on_missing_and_write_error_surfaced_witness :
    (getStorageProvider "ADDR1" (.error { message := some "boom" })).1 = "pinata" ∧
    (getStorageProvider "ADDR1" (.ok { data := none, error := none })).1 = "pinata" ∧
    (setStorageProvider "ADDR1" StorageProvider.lighthouse
        (.ok (some { message := some "boom" }))).1 =
      { success := false, message := some "boom" } ∧
    (setStorageProvider "ADDR1" StorageProvider.lighthouse (.ok none)).1 =
      { success := true, message := none } := by
  have h := C6_default_on_missing_and_write_error_surfaced "ADDR1"
    { message := some "boom" } none StorageProvider.lighthouse (by decide)
  exact ⟨h.1, h.2.1, h.2.2.2.2.2.1, h.2.2.2.2.2.2⟩

/-- C7 counterexample: at the empty account key, setStorageProvider refuses
the write and getStorageProvider returns the default, so
set(key, 'lighthouse') followed by get(key) yields 'pinata', not
'lighthouse' — refuting the round-trip claim for every account key. -/
theorem C7_counterexample :
    let store : Store := fun _ => none
    let afterSet := setStorageProviderSt store "" StorageProvider.lighthouse
    getStorageProviderSt afterSet.2 "" = "pinata" ∧
    getStorageProviderSt afterSet.2 "" ≠ "lighthouse" ∧
    afterSet.1 = { success := false, message := some "No wallet address provided" } := by
  exact ⟨rfl, by decide, rfl⟩

/-- C7 amended: for every nonempty account key whose record already exists
in the administrative table, setStorageProvider(key, 'lighthouse') succeeds
and a following getStorageProvider(key) returns 'lighthouse'.  (Besides the
empty key, a nonempty key with no stored record also breaks the unqualified
round-trip: the SQL update matches zero rows, reports success, and get still
returns the default.) -/
theorem C7_amended_roundtrip_on_existing_record (store : Store) (w : String)
    (h : w ≠ "") (hrow : (store w).isSome = true) :
    (setStorageProviderSt store w StorageProvider.lighthouse).1 =
      { success := true, message := none } ∧
    getStorageProviderSt (setStorageProviderSt store w StorageProvider.lighthouse).2 w =
      "lighthouse" := by
  obtain ⟨row, hrow2⟩ := Option.isSome_iff_exists.mp hrow
  simp [setStorageProviderSt, getStorageProviderSt, setStorageProvider,
    getStorageProvider, dbUpdateProvider, dbSelectProvider, provStr, h, hrow2]

/-- C7 witness: the amended theorem applied at a concrete store holding one
record. -/
theorem C7_amended_roundtrip_on_existing_record_witness :
    let store : Store := fun w => if w = "ADDR1" then some {} else none
    (setStorageProviderSt store "ADDR1" StorageProvider.lighthouse).1 =
      { success := true, message := none } ∧
    getStorageProviderSt (setStorageProviderSt store "ADDR1" StorageProvider.lighthouse).2
      "ADDR1" = "lighthouse" := by
  exact C7_amended_roundtrip_on_existing_record _ "ADDR1" (by decide) rfl

/-- C8: with no Lighthouse API key, uploadFileToLighthouse takes the mock
path and returns success = true with a synthetic 'bafkreib'-prefixed
identifier; feeding that result into the part 003 orchestrator with the
secondary provider requested (and the race not timing out — the mock delay
of 1.5 s is under the 3 s timer) reports provider = 'lighthouse' with
fallbackUsed = false.  The artificial delay itself is real time and outside
this embedding. -/
theorem C8_mock_path_without_credentials (lenv : Lighthouse.LighthouseEnv)
    (env : AdapterEnv) (hk : lenv.apiKey = none)
    (hlh : env.lighthouse = .ok (Lighthouse.uploadFileToLighthouse lenv))
    (ht : env.lighthouseTimedOut = false) :
    Lighthouse.uploadFileToLighthouse lenv =
      { success := true, cid := some ("bafkreib" ++ lenv.rand1 ++ lenv.rand2),
        message := none } ∧
    (∃ tail, (Lighthouse.uploadFileToLighthouse lenv).cid = some ("bafkreib" ++ tail)) ∧
    (Part003.uploadFileToIPFS env StorageProvider.lighthouse false).1 =
      .ok { success := true, cid := some ("bafkreib" ++ lenv.rand1 ++ lenv.rand2),
            message := none, provider := StorageProvider.lighthouse,
            fallbackUsed := false } ∧
    (Part003.uploadFileToIPFS env StorageProvider.lighthouse false).2 =
      [⟨AdapterCall.lighthouse, false⟩] := by
  have hmock : Lighthouse.uploadFileToLighthouse lenv =
      { success := true, cid := some ("bafkreib" ++ lenv.rand1 ++ lenv.rand2),
        message := none } := by
    simp [Lighthouse.uploadFileToLighthouse, hk]
  refine ⟨hmock, ⟨lenv.rand1 ++ lenv.rand2, by simp [hmock, String.append_assoc]⟩, ?_, ?_⟩ <;>
    simp [Part003.uploadFileToIPFS, hlh, ht, hmock]

/-- Concrete inputs for the C8 witness. -/
def lenvC8W : Lighthouse.LighthouseEnv :=
  ⟨none, "aaa111", "bbb222", .ok none⟩

/-- Concrete adapter environment for the C8 witness: the Lighthouse slot
settles to what the mock path returns; the Pinata behaviour is irrelevant. -/
def envC8W : AdapterEnv :=
  ⟨.ok (Lighthouse.uploadFileToLighthouse lenvC8W), false,
   fun _ => .error { message := none }⟩

/-- C8 witness: the theorem applied at a concrete input. -/
theorem C8_mock_path_without_credentials_witness :
    Lighthouse.uploadFileToLighthouse lenvC8W =
      { success := true, cid := some ("bafkreib" ++ "aaa111" ++ "bbb222"),
        message := none } ∧
    (Part003.uploadFileToIPFS envC8W StorageProvider.lighthouse false).1 =
      .ok { success := true, cid := some ("bafkreib" ++ "aaa111" ++ "bbb222"),
            message := none, provider := StorageProvider.lighthouse,
            fallbackUsed := false } := by
  have h := C8_mock_path_without_credentials lenvC8W envC8W rfl rfl rfl
  exact ⟨h.1, h.2.2.1⟩

/-- Whether the admin-record lookup found a row (without raising). -/
def adminRecordFound (sel : Except TsError AdminSelectOutcome) : Bool :=
  match sel with | .ok s => s.data.isSome | .error _ => false

/-- C9: fetchAdminInfo never raises and, for a nonempty account key:
isAdmin is true exactly when the administrative record was found; a found
record is returned directly with isAdmin = true and the session is never
consulted; a raising lookup degrades to the all-null non-admin profile; and
when the record is absent the session is consulted, an absent or raising
session again giving the all-null non-admin profile and a present session
giving its metadata with isAdmin = false. -/
theorem C9_fetchAdminInfo_contract (w : String)
    (sel : Except TsError AdminSelectOutcome)
    (sess : Except TsError (Option SessionUser)) (h : w ≠ "") :
    (∃ info, (fetchAdminInfo w sel sess).1 = .ok info ∧
      info.isAdmin = adminRecordFound sel) ∧
    (∀ s row, sel = .ok s → s.data = some row →
      fetchAdminInfo w sel sess =
        (.ok { fullName := row.full_name, email := row.email,
               subscriptionPlan := row.subscription_plan, isAdmin := true },
         [DbCall.select])) ∧
    (∀ e, sel = .error e →
      fetchAdminInfo w sel sess = (.ok allNullAdminInfo, [DbCall.select])) ∧
    (∀ s e, sel = .ok s → s.data = none → sess = .error e →
      fetchAdminInfo w sel sess =
        (.ok allNullAdminInfo, [DbCall.select, DbCall.getSession])) ∧
    (∀ s, sel = .ok s → s.data = none → sess = .ok none →
      fetchAdminInfo w sel sess =
        (.ok allNullAdminInfo, [DbCall.select, DbCall.getSession])) ∧
    (∀ s u, sel = .ok s → s.data = none → sess = .ok (some u) →
      fetchAdminInfo w sel sess =
        (.ok { fullName := u.full_name, email := u.email, subscriptionPlan := none,
               isAdmin := false }, [DbCall.select, DbCall.getSession])) := by
  refine ⟨?_, ?_, ?_, ?_, ?_, ?_⟩
  · rcases sel with e | s
    · exact ⟨allNullAdminInfo, by simp [fetchAdminInfo, h, adminRecordFound, allNullAdminInfo]⟩
    · rcases hd : s.data with _ | row
      · rcases sess with e2 | u
        · exact ⟨allNullAdminInfo,
            by simp [fetchAdminInfo, h, adminRecordFound, allNullAdminInfo, hd]⟩
        · rcases u with _ | u
          · exact ⟨allNullAdminInfo,
              by simp [fetchAdminInfo, h, adminRecordFound, allNullAdminInfo, hd]⟩
          · exact ⟨{ fullName := u.full_name, email := u.email,
                     subscriptionPlan := none, isAdmin := false },
              by simp [fetchAdminInfo, h, adminRecordFound, hd]⟩
      · exact ⟨{ fullName := row.full_name, email := row.email,
                 subscriptionPlan := row.subscription_plan, isAdmin := true },
          by simp [fetchAdminInfo, h, adminRecordFound, hd]⟩
  · intro s row hs hd; subst hs; simp [fetchAdminInfo, h, hd]
  · intro e he; subst he; simp [fetchAdminInfo, h]
  · intro s e hs hd he; subst hs; subst he; simp [fetchAdminInfo, h, hd]
  · intro s hs hd he; subst hs; subst he; simp [fetchAdminInfo, h, hd]
  · intro s u hs hd hu; subst hs; subst hu; simp [fetchAdminInfo, h, hd]

/-- C9 witness: the theorem applied at a concrete input with a found
record. -/
theorem C9_fetchAdminInfo_contract_witness :
    fetchAdminInfo "ADDR9"
        (.ok { data := some { full_name := some "Ada", email := some "a@b.c",
                              subscription_plan := some "pro",
                              storage_provider := some "pinata" },
               error := none })
        (.error { message := some "no session" }) =
      (.ok { fullName := some "Ada", email := some "a@b.c",
             subscriptionPlan := some "pro", isAdmin := true },
       [DbCall.select]) := by
  have h := C9_fetchAdminInfo_contract "ADDR9"
    (.ok { data := some { full_name := some "Ada", email := some "a@b.c",
                          subscription_plan := some "pro",
                          storage_provider := some "pinata" }, error := none })
    (.error { message := some "no session" }) (by decide)
  exact h.2.1 _ _ rfl rfl

/-- C10: with the empty account key every operation short-circuits and makes
no remote-store call (empty trace), whatever the store would have answered:
getStorageProvider returns 'pinata', fetchAdminInfo returns the all-null
non-admin profile, and setStorageProvider and updateAdminInfo return the
'No wallet address provided' failure. -/
theorem C10_empty_wallet_short_circuits :
    ∀ (sel : Except TsError SelectOutcome) (p : StorageProvider)
      (upd : Except TsError (Option TsError))
      (sel2 : Except TsError AdminSelectOutcome)
      (sess : Except TsError (Option SessionUser))
      (updates : AdminUpdates) (selId : Except TsError (Option Unit))
      (upd2 authUpd : Except TsError (Option TsError)),
      getStorageProvider "" sel = ("pinata", []) ∧
      setStorageProvider "" p upd =
        ({ success := false, message := some "No wallet address provided" }, []) ∧
      fetchAdminInfo "" sel2 sess = (.ok allNullAdminInfo, []) ∧
      updateAdminInfo "" updates selId upd2 authUpd =
        ({ success := false, message := some "No wallet address provided" }, []) := by
  intros
  exact ⟨rfl, rfl, rfl, rfl⟩
